import Mathlib

/-!
A shallow embedding of the Clash of Clans API client in src/index.js,
together with proofs of the specification claims about it.

JavaScript values that flow through the client (option objects, header
maps, query-string maps, tokens) are modelled by the inductive type
JVal; plain objects are association lists of string keys kept in
property-insertion order, matching JavaScript object iteration order.
Duplicate keys never arise in source-built objects; where the merge
model appends a source object wholesale, a shadowed later binding is
unobservable because property lookup takes the first binding.
-/

namespace ClashOfClans

/-- JavaScript values relevant to the client: strings, numbers, booleans
and plain objects (association lists in property-insertion order). -/
inductive JVal where
  | str : String → JVal
  | num : Int → JVal
  | bool : Bool → JVal
  | obj : List (String × JVal) → JVal

/-- JavaScript truthiness of a modelled value: empty strings, zero and
false are falsy, every object is truthy. -/
def JVal.truthy : JVal → Bool
  | .str s => !(s == "")
  | .num n => !(n == 0)
  | .bool b => b
  | .obj _ => true

/-- Whether a value is a plain object. -/
def JVal.isObj : JVal → Bool
  | .obj _ => true
  | _ => false

/-- JavaScript string coercion, as performed by template-literal
interpolation. -/
def JVal.jsToString : JVal → String
  | .str s => s
  | .num n => toString n
  | .bool b => if b then "true" else "false"
  | .obj _ => "[object Object]"

/-- Own enumerable properties of a value. lodash merge iterates these,
so a non-object merge source contributes nothing. -/
def JVal.objFields : JVal → List (String × JVal)
  | .obj l => l
  | _ => []

/-- Property lookup on a modelled object (the first binding wins). -/
def lookupKey : List (String × JVal) → String → Option JVal
  | [], _ => none
  | (k', v) :: t, k => if k' = k then some v else lookupKey t k

mutual

/-- The merge of two values in the sense of lodash merge: two plain
objects merge recursively, any other source value overwrites the
destination value. -/
def mergeVal : JVal → JVal → JVal
  | .obj a, .obj b => .obj (mergeObjList a b)
  | _, b => b

/-- The merge of two objects in the sense of lodash merge: destination
keys keep their positions (their values merged with the source value
when the source also has the key) and the remaining source bindings
follow. -/
def mergeObjList : List (String × JVal) → List (String × JVal) → List (String × JVal)
  | [], b => b
  | (k, v) :: t, b =>
    match lookupKey b k with
    | none => (k, v) :: mergeObjList t b
    | some w => (k, mergeVal v w) :: mergeObjList t b

end

/-- Whether a character is left unescaped by the ECMAScript
encodeURIComponent builtin: ASCII letters, digits, and the marks
- _ . ! ~ * apostrophe ( ). -/
def isUriUnreserved (c : Char) : Bool :=
  (65 ≤ c.toNat && c.toNat ≤ 90) || (97 ≤ c.toNat && c.toNat ≤ 122) ||
  (48 ≤ c.toNat && c.toNat ≤ 57) ||
  c == '-' || c == '_' || c == '.' || c == '!' || c == '~' || c == '*' ||
  c == Char.ofNat 39 || c == '(' || c == ')'

/-- Uppercase hexadecimal digit for a value below 16. -/
def hexDigit (n : Nat) : Char :=
  if n < 10 then Char.ofNat (48 + n) else Char.ofNat (55 + n)

/-- UTF-8 encoding of a Unicode code point, as a list of byte values. -/
def utf8Bytes (n : Nat) : List Nat :=
  if n < 128 then [n]
  else if n < 2048 then [192 + n / 64, 128 + n % 64]
  else if n < 65536 then [224 + n / 4096, 128 + n / 64 % 64, 128 + n % 64]
  else [240 + n / 262144, 128 + n / 4096 % 64, 128 + n / 64 % 64, 128 + n % 64]

/-- Percent-escape of one byte, with uppercase hexadecimal digits. -/
def pctByte (b : Nat) : String :=
  "%" ++ String.singleton (hexDigit (b / 16)) ++ String.singleton (hexDigit (b % 16))

/-- The ECMAScript encodeURIComponent builtin: unreserved characters are
kept, every other character is replaced by the percent-escapes of its
UTF-8 bytes. -/
def encodeURIComponent (s : String) : String :=
  String.join (s.data.map fun c =>
    if isUriUnreserved c then String.singleton c
    else String.join ((utf8Bytes c.toNat).map pctByte))

/-- Errors the client can raise: the construction-time token error
(line 32 of src/index.js), the JavaScript TypeError raised when an
undefined property is called as a function, and the JavaScript
ReferenceError raised when an undeclared identifier is evaluated. -/
inductive JsError where
  | configError : JsError
  | typeError : JsError
  | referenceError : JsError

/-- Modelled from the spec: the compiled-in default base URI supplied by
the external config module (imported on line 2 of src/index.js but not
part of the repository sources); its concrete value is immaterial to
every claim. -/
def configUri : String := "https://api.clashofclans.com/v1"

/-- The client state: exactly the three fields assigned in the
constructor of src/index.js (lines 28-30). -/
structure ClashApi where
  token : JVal
  uri : String
  _requestDefaults : JVal

/-- The ClashApi constructor (src/index.js lines 24-34). The argument is
the raw configuration object, destructured into its uri, token and
request properties; the second argument models process.env.COC_API_TOKEN.
Resolution follows the source: token is the explicit token when truthy,
else the environment value; uri falls back to the compiled-in default;
_requestDefaults falls back to the empty object; a falsy resolved token
raises the construction error before any client is produced. -/
def ClashApi.construct (cfg : List (String × JVal)) (envToken : Option String) :
    Except JsError ClashApi :=
  let tokVal : Option JVal :=
    match lookupKey cfg "token" with
    | some t => if t.truthy then some t else envToken.map JVal.str
    | none => envToken.map JVal.str
  let uriVal : String :=
    match lookupKey cfg "uri" with
    | some u => if u.truthy then u.jsToString else configUri
    | none => configUri
  let reqDefaults : JVal :=
    match lookupKey cfg "request" with
    | some r => if r.truthy then r else .obj []
    | none => .obj []
  match tokVal with
  | some t => if t.truthy then .ok ⟨t, uriVal, reqDefaults⟩ else .error .configError
  | none => .error .configError

/-- The fixed base options template built inside requestOptions
(src/index.js lines 37-42): an Accept header, the bearer authorization
header interpolating the token, and the expect-JSON flag. -/
def baseOptions (token : JVal) : List (String × JVal) :=
  [("headers", .obj [("Accept", .str "application/json"),
                     ("authorization", .str ("Bearer " ++ token.jsToString))]),
   ("json", .bool true)]

/-- requestOptions (src/index.js lines 36-44): the lodash merge of the
base template, the per-call options and the construction-time defaults,
in that order, so later sources take precedence. A non-object defaults
value contributes no properties, exactly as in lodash merge. -/
def ClashApi.requestOptions (c : ClashApi) (opts : List (String × JVal)) :
    List (String × JVal) :=
  mergeObjList (mergeObjList (baseOptions c.token) opts) c._requestDefaults.objFields

/-- One invocation of the request-promise transport: the HTTP method and
the fully merged options object handed to it. request-promise performs a
GET whenever the options set no method, and no call site in src/index.js
sets one. -/
structure IssuedCall where
  method : String
  opts : List (String × JVal)

/-- ASCII lower-casing of one character. -/
def charLower (c : Char) : Char :=
  if 65 ≤ c.toNat && c.toNat ≤ 90 then Char.ofNat (c.toNat + 32) else c

/-- ASCII case-insensitive string comparison. -/
def eqCI (a b : String) : Bool :=
  a.data.map charLower == b.data.map charLower

/-- Case-insensitive lookup among header bindings: HTTP header field
names are case-insensitive, and the transport sends the stored names
verbatim. -/
def lookupHeaderCI : List (String × JVal) → String → Option JVal
  | [], _ => none
  | (k, v) :: t, name => if eqCI k name then some v else lookupHeaderCI t name

/-- The value of the named HTTP header carried by an issued call. -/
def IssuedCall.header (r : IssuedCall) (name : String) : Option JVal :=
  match lookupKey r.opts "headers" with
  | some (.obj hs) => lookupHeaderCI hs name
  | _ => none

/-- clanByTag (src/index.js lines 57-61): the transport calls its
evaluation performs. -/
def ClashApi.clanByTag (c : ClashApi) (tag : String) : List IssuedCall :=
  [{ method := "GET",
     opts := c.requestOptions
       [("uri", .str (c.uri ++ "/clans/" ++ encodeURIComponent tag))] }]

/-- clanMembersByTag (src/index.js lines 74-78). -/
def ClashApi.clanMembersByTag (c : ClashApi) (tag : String) : List IssuedCall :=
  [{ method := "GET",
     opts := c.requestOptions
       [("uri", .str (c.uri ++ "/clans/" ++ encodeURIComponent tag ++ "/members"))] }]

/-- clanWarlogByTag (src/index.js lines 91-95). -/
def ClashApi.clanWarlogByTag (c : ClashApi) (tag : String) : List IssuedCall :=
  [{ method := "GET",
     opts := c.requestOptions
       [("uri", .str (c.uri ++ "/clans/" ++ encodeURIComponent tag ++ "/warlog"))] }]

/-- clanCurrentWarByTag (src/index.js lines 108-112). -/
def ClashApi.clanCurrentWarByTag (c : ClashApi) (tag : String) : List IssuedCall :=
  [{ method := "GET",
     opts := c.requestOptions
       [("uri", .str (c.uri ++ "/clans/" ++ encodeURIComponent tag ++ "/currentwar"))] }]

/-- clanLeague (src/index.js lines 119-123). -/
def ClashApi.clanLeague (c : ClashApi) (tag : String) : List IssuedCall :=
  [{ method := "GET",
     opts := c.requestOptions
       [("uri", .str (c.uri ++ "/clans/" ++ encodeURIComponent tag ++
          "/currentwar/leaguegroup"))] }]

/-- clanLeagueWars (src/index.js lines 125-129). -/
def ClashApi.clanLeagueWars (c : ClashApi) (tag : String) : List IssuedCall :=
  [{ method := "GET",
     opts := c.requestOptions
       [("uri", .str (c.uri ++ "/clanwarleagues/wars/" ++ encodeURIComponent tag))] }]

/-- leagues (src/index.js lines 240-244). -/
def ClashApi.leagues (c : ClashApi) : List IssuedCall :=
  [{ method := "GET",
     opts := c.requestOptions [("uri", .str (c.uri ++ "/leagues"))] }]

/-- playerByTag (src/index.js lines 248-252). -/
def ClashApi.playerByTag (c : ClashApi) (tag : String) : List IssuedCall :=
  [{ method := "GET",
     opts := c.requestOptions
       [("uri", .str (c.uri ++ "/players/" ++ encodeURIComponent tag))] }]

/-- Property assignment on a modelled object, as performed by a
JavaScript assignment qs[field] = input: an existing binding is updated
in place, a new key is appended. -/
def setKey : List (String × JVal) → String → JVal → List (String × JVal)
  | [], k, v => [(k, v)]
  | (k', v') :: t, k, v => if k' = k then (k, v) :: t else (k', v') :: setKey t k v

/-- The clan-search builder returned by clans() (src/index.js lines
150-180): the originating client plus the closure-captured query-string
object qs that the setters write into. -/
structure ClansDsl where
  client : ClashApi
  qs : List (String × JVal)

/-- The recognized filter fields of the clan-search builder, in the
order of the dsl list on lines 153-164 of src/index.js. -/
def clansDslFields : List String :=
  ["name", "warFrequency", "locationId", "minMembers", "maxMembers",
   "minClanPoints", "minClanLevel", "limit", "after", "before"]

/-- The body of every generated with-setter (src/index.js lines
165-168): record the input under the field in the shared qs mapping and
return the builder. -/
def ClansDsl.withField (b : ClansDsl) (field : String) (input : JVal) : ClansDsl :=
  { b with qs := setKey b.qs field input }

/-- The withName setter of the clan-search builder. -/
def ClansDsl.withName (b : ClansDsl) (input : JVal) : ClansDsl :=
  b.withField "name" input

/-- The withWarFrequency setter of the clan-search builder. -/
def ClansDsl.withWarFrequency (b : ClansDsl) (input : JVal) : ClansDsl :=
  b.withField "warFrequency" input

/-- The withLocationId setter of the clan-search builder. -/
def ClansDsl.withLocationId (b : ClansDsl) (input : JVal) : ClansDsl :=
  b.withField "locationId" input

/-- The withMinMembers setter of the clan-search builder. -/
def ClansDsl.withMinMembers (b : ClansDsl) (input : JVal) : ClansDsl :=
  b.withField "minMembers" input

/-- The withMaxMembers setter of the clan-search builder. -/
def ClansDsl.withMaxMembers (b : ClansDsl) (input : JVal) : ClansDsl :=
  b.withField "maxMembers" input

/-- The withMinClanPoints setter of the clan-search builder. -/
def ClansDsl.withMinClanPoints (b : ClansDsl) (input : JVal) : ClansDsl :=
  b.withField "minClanPoints" input

/-- The withMinClanLevel setter of the clan-search builder. -/
def ClansDsl.withMinClanLevel (b : ClansDsl) (input : JVal) : ClansDsl :=
  b.withField "minClanLevel" input

/-- The withLimit setter of the clan-search builder. -/
def ClansDsl.withLimit (b : ClansDsl) (input : JVal) : ClansDsl :=
  b.withField "limit" input

/-- The withAfter setter of the clan-search builder. -/
def ClansDsl.withAfter (b : ClansDsl) (input : JVal) : ClansDsl :=
  b.withField "after" input

/-- The withBefore setter of the clan-search builder. -/
def ClansDsl.withBefore (b : ClansDsl) (input : JVal) : ClansDsl :=
  b.withField "before" input

/-- The fetch of the clan-search builder (src/index.js lines 171-176,
bound to the client): one GET to clans with the accumulated qs. -/
def ClansDsl.fetch (b : ClansDsl) : List IssuedCall :=
  [{ method := "GET",
     opts := b.client.requestOptions
       [("qs", .obj b.qs), ("uri", .str (b.client.uri ++ "/clans"))] }]

/-- clans() (src/index.js line 150): a fresh builder with an empty qs. -/
def ClashApi.clans (c : ClashApi) : ClansDsl :=
  { client := c, qs := [] }

/-- The top-level locations DSL object (src/index.js lines 194-235). -/
structure LocationsDsl where
  client : ClashApi

/-- locations() (src/index.js line 194). -/
def ClashApi.locations (c : ClashApi) : LocationsDsl :=
  { client := c }

/-- The fetch of the top-level locations object (src/index.js lines
196-200, bound to the client): one GET listing all locations. -/
def LocationsDsl.fetch (d : LocationsDsl) : List IssuedCall :=
  [{ method := "GET",
     opts := d.client.requestOptions
       [("uri", .str (d.client.uri ++ "/locations"))] }]

/-- withId (src/index.js lines 201-232). The body first builds the
rankingDslMembers literal, then line 215 evaluates the call
assign(..., rankingDslMembers); but line 3 imports only merge from
lodash and no identifier named assign is declared anywhere in the
module, so evaluating it raises a ReferenceError. Neither the
second-level object (locDsl, line 223) nor the ranking object
(rankingDsl, line 215) is ever constructed, byClan, byPlayer and both
downstream fetch functions never come into existence, and no transport
call is made. The result type's success payload is never produced. -/
def LocationsDsl.withId (_ : LocationsDsl) (_ : String) : Except JsError Unit :=
  .error .referenceError

/-- One observable client operation: every public call sequence of
src/index.js that reaches a transport invocation, plus the withId call,
which raises before reaching one. -/
inductive Op where
  | clanByTag (tag : String)
  | clanMembersByTag (tag : String)
  | clanWarlogByTag (tag : String)
  | clanCurrentWarByTag (tag : String)
  | clanLeague (tag : String)
  | clanLeagueWars (tag : String)
  | leagues
  | playerByTag (tag : String)
  | clansSearch (settings : List (String × JVal))
  | locationsList
  | locationWithId (locId : String)

/-- Evaluation of one operation against a client: the transport calls
it performs and the client state it leaves behind. No method body of
src/index.js assigns to any field of this, so every operation leaves
the client exactly as constructed. The withId operation raises a
ReferenceError before reaching any transport call, so it issues none
and also leaves the client untouched. -/
def runOp (c : ClashApi) : Op → List IssuedCall × ClashApi
  | .clanByTag tag => (c.clanByTag tag, c)
  | .clanMembersByTag tag => (c.clanMembersByTag tag, c)
  | .clanWarlogByTag tag => (c.clanWarlogByTag tag, c)
  | .clanCurrentWarByTag tag => (c.clanCurrentWarByTag tag, c)
  | .clanLeague tag => (c.clanLeague tag, c)
  | .clanLeagueWars tag => (c.clanLeagueWars tag, c)
  | .leagues => (c.leagues, c)
  | .playerByTag tag => (c.playerByTag tag, c)
  | .clansSearch settings =>
      ((settings.foldl (fun b p => b.withField p.1 p.2) c.clans).fetch, c)
  | .locationsList => (c.locations.fetch, c)
  | .locationWithId locId =>
      (match c.locations.withId locId with
       | .ok _ => []
       | .error _ => [], c)

/-- The client state left after a sequence of operations. -/
def runOps (c : ClashApi) (ops : List Op) : ClashApi :=
  ops.foldl (fun c op => (runOp c op).2) c

/-- A fixed witness client with empty construction-time defaults. -/
def cW : ClashApi :=
  { token := JVal.str "T", uri := configUri, _requestDefaults := JVal.obj [] }

/-- A fixed witness client whose construction-time defaults bind the
json key. -/
def cWd : ClashApi :=
  { token := JVal.str "T", uri := configUri,
    _requestDefaults := JVal.obj [("json", JVal.bool false)] }

/-- The configuration object of the C8 counterexample: a token plus a
requestDefaults field, the field name the claim prescribes. -/
def cfgC8 : List (String × JVal) :=
  [("token", JVal.str "T"),
   ("requestDefaults", JVal.obj [("json", JVal.bool false)])]

/-- The client the constructor actually produces from cfgC8. -/
def cC8 : ClashApi :=
  { token := JVal.str "T", uri := configUri, _requestDefaults := JVal.obj [] }

/-- The configuration object of the C8 witness: a token plus a request
field binding json to false. -/
def cfgW8 : List (String × JVal) :=
  [("token", JVal.str "T"), ("request", JVal.obj [("json", JVal.bool false)])]

/-- Merging the empty source object changes nothing. -/
theorem mergeObjList_nil (a : List (String × JVal)) : mergeObjList a [] = a := by
  induction a with
  | nil => simp [mergeObjList]
  | cons p t ih =>
    obtain ⟨k, v⟩ := p
    simp [mergeObjList, lookupKey, ih]

/-- A non-object source value always wins the merge. -/
theorem mergeVal_leaf (v w : JVal) (hw : w.isObj = false) : mergeVal v w = w := by
  cases v <;> cases w <;> simp_all [mergeVal, JVal.isObj]

/-- Lookup in a merged object: a key only in one side keeps its value,
a key in both sides gets the merge of the two values. -/
theorem lookupKey_mergeObjList (a b : List (String × JVal)) (k : String) :
    lookupKey (mergeObjList a b) k =
      match lookupKey a k with
      | none => lookupKey b k
      | some v =>
        match lookupKey b k with
        | none => some v
        | some w => some (mergeVal v w) := by
  induction a with
  | nil => simp [mergeObjList, lookupKey]
  | cons p t ih =>
    obtain ⟨k', v'⟩ := p
    by_cases hk : k' = k
    · subst hk
      cases hb : lookupKey b k' <;> simp [mergeObjList, lookupKey, hb]
    · cases hb : lookupKey b k' <;> simp [mergeObjList, lookupKey, hk, hb, ih]

/-- A key bound to a non-object value by the construction-time defaults
resolves to that value in the merged request options, whatever the
per-call options and the base template say. -/
theorem requestOptions_defaults_leaf (c : ClashApi) (o : List (String × JVal))
    (k : String) (v : JVal)
    (hv : lookupKey c._requestDefaults.objFields k = some v)
    (hleaf : v.isObj = false) :
    lookupKey (c.requestOptions o) k = some v := by
  unfold ClashApi.requestOptions
  rw [lookupKey_mergeObjList, hv]
  cases ha : lookupKey (mergeObjList (baseOptions c.token) o) k with
  | none => simp
  | some u => simp [mergeVal_leaf u v hleaf]

/-- A key absent from the construction-time defaults and bound to a
non-object value by the per-call options resolves to that value. -/
theorem requestOptions_opts_leaf (c : ClashApi) (o : List (String × JVal))
    (k : String) (v : JVal)
    (hd : lookupKey c._requestDefaults.objFields k = none)
    (ho : lookupKey o k = some v)
    (hleaf : v.isObj = false) :
    lookupKey (c.requestOptions o) k = some v := by
  unfold ClashApi.requestOptions
  rw [lookupKey_mergeObjList, hd, lookupKey_mergeObjList, ho]
  cases hb : lookupKey (baseOptions c.token) k with
  | none => simp
  | some u => simp [mergeVal_leaf u v hleaf]

/-- A key absent from the defaults and from the base template and bound
by the per-call options resolves to the per-call value, whatever it is. -/
theorem requestOptions_opts_only (c : ClashApi) (o : List (String × JVal))
    (k : String) (v : JVal)
    (hd : lookupKey c._requestDefaults.objFields k = none)
    (hb : lookupKey (baseOptions c.token) k = none)
    (ho : lookupKey o k = some v) :
    lookupKey (c.requestOptions o) k = some v := by
  unfold ClashApi.requestOptions
  rw [lookupKey_mergeObjList, hd, lookupKey_mergeObjList, hb, ho]

/-- A key absent from the defaults and from the per-call options
resolves to whatever the base template gives it. -/
theorem requestOptions_base (c : ClashApi) (o : List (String × JVal)) (k : String)
    (hd : lookupKey c._requestDefaults.objFields k = none)
    (ho : lookupKey o k = none) :
    lookupKey (c.requestOptions o) k = lookupKey (baseOptions c.token) k := by
  unfold ClashApi.requestOptions
  rw [lookupKey_mergeObjList, hd, lookupKey_mergeObjList, ho]
  cases hb : lookupKey (baseOptions c.token) k <;> simp

/-- For a client with empty construction-time defaults whose token is
the string t, any request built from per-call options that set no
headers key carries the bearer authorization header for t. -/
theorem requestOptions_auth_header (c : ClashApi) (o : List (String × JVal)) (t : String)
    (ht : c.token = .str t) (hd : c._requestDefaults = .obj [])
    (ho : lookupKey o "headers" = none) :
    IssuedCall.header ⟨"GET", c.requestOptions o⟩ "Authorization" =
      some (.str ("Bearer " ++ t)) := by
  have hdl : lookupKey c._requestDefaults.objFields "headers" = none := by
    rw [hd]; rfl
  have hbase : lookupKey (baseOptions c.token) "headers" =
      some (.obj [("Accept", .str "application/json"),
                  ("authorization", .str ("Bearer " ++ t))]) := by
    rw [ht]; rfl
  have hmain := requestOptions_base c o "headers" hdl ho
  unfold IssuedCall.header
  rw [hmain, hbase]
  simp only [lookupHeaderCI]
  rw [if_neg (by decide), if_pos (by decide)]

/-- No operation changes the client: every method of src/index.js only
reads the fields assigned in the constructor. -/
theorem runOp_client (c : ClashApi) (op : Op) : (runOp c op).2 = c := by
  cases op <;> rfl

/-- A sequence of operations leaves the client exactly as it started. -/
theorem runOps_client (c : ClashApi) (ops : List Op) : runOps c ops = c := by
  induction ops generalizing c with
  | nil => rfl
  | cons op t ih => rw [runOps, List.foldl_cons, runOp_client]; exact ih c

/-- Setting a key makes it resolve to the written value. -/
theorem lookupKey_setKey (l : List (String × JVal)) (k : String) (v : JVal) :
    lookupKey (setKey l k v) k = some v := by
  induction l with
  | nil => simp [setKey, lookupKey]
  | cons p t ih =>
    obtain ⟨k', v'⟩ := p
    by_cases hk : k' = k
    · subst hk; simp [setKey, lookupKey]
    · simp [setKey, lookupKey, hk, ih]

/-- Writing the same key twice is the same as writing it once with the
second value. -/
theorem setKey_setKey (l : List (String × JVal)) (k : String) (v1 v2 : JVal) :
    setKey (setKey l k v1) k v2 = setKey l k v2 := by
  induction l with
  | nil => simp [setKey]
  | cons p t ih =>
    obtain ⟨k', v'⟩ := p
    by_cases hk : k' = k
    · subst hk; simp [setKey]
    · simp [setKey, hk, ih]

/-- Folding any sequence of setter writes over a clan-search builder
never touches the originating client. -/
theorem foldl_withField_client (b : ClansDsl) (settings : List (String × JVal)) :
    (settings.foldl (fun b p => b.withField p.1 p.2) b).client = b.client := by
  induction settings generalizing b with
  | nil => rfl
  | cons p t ih => rw [List.foldl_cons]; exact ih _

/-- C1: requestOptions returns the deep merge of the fixed base
template, the caller-supplied partial options and the construction-time
defaults, in increasing precedence: a key bound to a non-object value
by the construction-time defaults wins over everything, otherwise a key
bound to a non-object value by the per-call options wins over the base
template, and a key set by neither keeps the base template's binding. -/
theorem requestOptions_precedence (c : ClashApi) (opts : List (String × JVal)) (k : String) :
    (c.requestOptions opts =
      mergeObjList (mergeObjList (baseOptions c.token) opts) c._requestDefaults.objFields) ∧
    (∀ v, lookupKey c._requestDefaults.objFields k = some v → v.isObj = false →
      lookupKey (c.requestOptions opts) k = some v) ∧
    (lookupKey c._requestDefaults.objFields k = none →
      ∀ v, lookupKey opts k = some v → v.isObj = false →
        lookupKey (c.requestOptions opts) k = some v) ∧
    (lookupKey c._requestDefaults.objFields k = none → lookupKey opts k = none →
      lookupKey (c.requestOptions opts) k = lookupKey (baseOptions c.token) k) :=
  ⟨rfl,
   fun v hv hleaf => requestOptions_defaults_leaf c opts k v hv hleaf,
   fun hd v ho hleaf => requestOptions_opts_leaf c opts k v hd ho hleaf,
   fun hd ho => requestOptions_base c opts k hd ho⟩

/-- Witness for C1: a construction-time default json false beats both
the per-call json 5 and the base template's json true. -/
theorem requestOptions_precedence_witness :
    lookupKey cWd._requestDefaults.objFields "json" = some (JVal.bool false) ∧
    (JVal.bool false).isObj = false ∧
    lookupKey (cWd.requestOptions [("json", JVal.num 5)]) "json" = some (JVal.bool false) :=
  ⟨rfl, rfl,
   (requestOptions_precedence cWd [("json", JVal.num 5)] "json").2.1 (JVal.bool false) rfl rfl⟩

/-- C2 (code bug): for every location id L, the ranking chains can
never issue their GETs: the withId call itself raises a ReferenceError
(line 215 of src/index.js evaluates the undeclared identifier assign;
line 3 imports only merge from lodash), so the byPlayer and byClan
selectors and their fetch never come into existence and the operation
performs no transport call at all. -/
theorem withId_raises_reference_error (c : ClashApi) (L : String) :
    c.locations.withId L = Except.error JsError.referenceError ∧
    (runOp c (Op.locationWithId L)).1 = [] :=
  ⟨rfl, rfl⟩

/-- C3: construction succeeds exactly when some source supplies a
truthy token (a truthy explicit token value, or a non-empty environment
variable), and raises the configuration error exactly when neither
source does. -/
theorem construct_token_required (cfg : List (String × JVal)) (envTok : Option String) :
    ((∃ c, ClashApi.construct cfg envTok = Except.ok c) ↔
      ((∃ t, lookupKey cfg "token" = some t ∧ t.truthy = true) ∨
       (∃ s, envTok = some s ∧ s ≠ ""))) ∧
    ((ClashApi.construct cfg envTok = Except.error JsError.configError) ↔
      ((∀ t, lookupKey cfg "token" = some t → t.truthy = false) ∧
       (∀ s, envTok = some s → s = ""))) := by
  cases hcfg : lookupKey cfg "token" with
  | none =>
    cases henv : envTok with
    | none => simp [ClashApi.construct, hcfg]
    | some s =>
      by_cases hs : s = ""
      · subst hs
        have h0 : (JVal.str "").truthy = false := rfl
        simp [ClashApi.construct, hcfg, h0]
      · have hs' : (JVal.str s).truthy = true := by simp [JVal.truthy, hs]
        simp [ClashApi.construct, hcfg, hs', hs]
  | some t =>
    cases htr : t.truthy with
    | true => simp [ClashApi.construct, hcfg, htr]
    | false =>
      cases henv : envTok with
      | none => simp [ClashApi.construct, hcfg, htr]
      | some s =>
        by_cases hs : s = ""
        · subst hs
          have h0 : (JVal.str "").truthy = false := rfl
          simp [ClashApi.construct, hcfg, htr, h0]
        · have hs' : (JVal.str s).truthy = true := by simp [JVal.truthy, hs]
          simp [ClashApi.construct, hcfg, htr, hs', hs]

/-- C4: every setter of the clan-search builder keeps the originating
client, records its value under its field, and writing the same field
twice equals writing it once with the second value; the doubled
withMinMembers chain then issues exactly one GET to the clans path
whose query-string object binds minMembers to the second value,
provided the construction-time defaults do not override qs or uri. -/
theorem clans_last_write_wins (c : ClashApi) (b : ClansDsl) (f : String) (v1 v2 : JVal)
    (hq : lookupKey c._requestDefaults.objFields "qs" = none)
    (hu : lookupKey c._requestDefaults.objFields "uri" = none) :
    ((b.withField f v1).client = b.client) ∧
    (lookupKey (b.withField f v1).qs f = some v1) ∧
    ((b.withField f v1).withField f v2 = b.withField f v2) ∧
    (∃ r, ((c.clans.withMinMembers v1).withMinMembers v2).fetch = [r] ∧
      r.method = "GET" ∧
      lookupKey r.opts "uri" = some (JVal.str (c.uri ++ "/clans")) ∧
      lookupKey r.opts "qs" = some (JVal.obj [("minMembers", v2)])) := by
  refine ⟨rfl, lookupKey_setKey b.qs f v1, ?_, ?_⟩
  · simp [ClansDsl.withField, setKey_setKey]
  · refine ⟨_, rfl, rfl, ?_, ?_⟩
    · exact requestOptions_opts_only c _ "uri" _ hu rfl rfl
    · exact requestOptions_opts_only c _ "qs" _ hq rfl rfl

/-- Witness for C4 at minMembers 10 then 20. -/
theorem clans_last_write_wins_witness :
    lookupKey cW._requestDefaults.objFields "qs" = none ∧
    lookupKey cW._requestDefaults.objFields "uri" = none ∧
    (((cW.clans.withField "minMembers" (JVal.num 10)).client = cW.clans.client) ∧
     (lookupKey (cW.clans.withField "minMembers" (JVal.num 10)).qs "minMembers" =
       some (JVal.num 10)) ∧
     ((cW.clans.withField "minMembers" (JVal.num 10)).withField "minMembers" (JVal.num 20) =
       cW.clans.withField "minMembers" (JVal.num 20)) ∧
     (∃ r, ((cW.clans.withMinMembers (JVal.num 10)).withMinMembers (JVal.num 20)).fetch = [r] ∧
       r.method = "GET" ∧
       lookupKey r.opts "uri" = some (JVal.str (cW.uri ++ "/clans")) ∧
       lookupKey r.opts "qs" = some (JVal.obj [("minMembers", JVal.num 20)]))) :=
  ⟨rfl, rfl,
   clans_last_write_wins cW cW.clans "minMembers" (JVal.num 10) (JVal.num 20) rfl rfl⟩

/-- C5: the tag is percent-encoded before substitution into the URI
template of every identifier-taking direct-fetch method, and the
encoding of the tag number-sign ABC123 is percent two three ABC123. -/
theorem tag_percent_encoded (c : ClashApi)
    (hu : lookupKey c._requestDefaults.objFields "uri" = none) :
    encodeURIComponent "#ABC123" = "%23ABC123" ∧
    (∀ tag, ∃ r, c.clanByTag tag = [r] ∧ lookupKey r.opts "uri" =
      some (JVal.str (c.uri ++ "/clans/" ++ encodeURIComponent tag))) ∧
    (∀ tag, ∃ r, c.clanMembersByTag tag = [r] ∧ lookupKey r.opts "uri" =
      some (JVal.str (c.uri ++ "/clans/" ++ encodeURIComponent tag ++ "/members"))) ∧
    (∀ tag, ∃ r, c.clanWarlogByTag tag = [r] ∧ lookupKey r.opts "uri" =
      some (JVal.str (c.uri ++ "/clans/" ++ encodeURIComponent tag ++ "/warlog"))) ∧
    (∀ tag, ∃ r, c.clanCurrentWarByTag tag = [r] ∧ lookupKey r.opts "uri" =
      some (JVal.str (c.uri ++ "/clans/" ++ encodeURIComponent tag ++ "/currentwar"))) ∧
    (∀ tag, ∃ r, c.clanLeague tag = [r] ∧ lookupKey r.opts "uri" =
      some (JVal.str (c.uri ++ "/clans/" ++ encodeURIComponent tag ++
        "/currentwar/leaguegroup"))) ∧
    (∀ tag, ∃ r, c.clanLeagueWars tag = [r] ∧ lookupKey r.opts "uri" =
      some (JVal.str (c.uri ++ "/clanwarleagues/wars/" ++ encodeURIComponent tag))) ∧
    (∀ tag, ∃ r, c.playerByTag tag = [r] ∧ lookupKey r.opts "uri" =
      some (JVal.str (c.uri ++ "/players/" ++ encodeURIComponent tag))) := by
  refine ⟨rfl, ?_, ?_, ?_, ?_, ?_, ?_, ?_⟩ <;>
    exact fun tag => ⟨_, rfl, requestOptions_opts_only c _ "uri" _ hu rfl rfl⟩

/-- Witness for C5: the clan lookup at the concrete tag containing a
number sign. -/
theorem tag_percent_encoded_witness :
    lookupKey cW._requestDefaults.objFields "uri" = none ∧
    (∃ r, cW.clanByTag "#ABC123" = [r] ∧ lookupKey r.opts "uri" =
      some (JVal.str (cW.uri ++ "/clans/" ++ encodeURIComponent "#ABC123"))) :=
  ⟨rfl, (tag_percent_encoded cW rfl).2.1 "#ABC123"⟩

/-- C6 (code bug): the second-level object whose fetch would issue the
single-location GET is never produced: at the concrete location id
32000006, withId raises a ReferenceError (the undeclared identifier
assign on line 215 of src/index.js) before constructing the object on
line 223, so no fetch exists to call and no GET to the single-location
path is ever issued. -/
theorem locId_fetch_never_reached :
    cW.locations.withId "32000006" = Except.error JsError.referenceError ∧
    (runOp cW (Op.locationWithId "32000006")).1 = [] :=
  ⟨rfl, rfl⟩

/-- C7: every request issued by every operation of a client constructed
with string token t and empty construction-time defaults carries the
authorization header (header names compare case-insensitively in HTTP)
with value Bearer followed by t. -/
theorem authorization_header_on_every_request (cfg : List (String × JVal))
    (envTok : Option String) (c : ClashApi) (t : String)
    (_hok : ClashApi.construct cfg envTok = Except.ok c)
    (ht : c.token = JVal.str t)
    (hd : c._requestDefaults = JVal.obj []) :
    ∀ op : Op, ∀ r, r ∈ (runOp c op).1 →
      r.header "Authorization" = some (JVal.str ("Bearer " ++ t)) := by
  intro op r hr
  cases op with
  | clanByTag tag =>
    simp [runOp, ClashApi.clanByTag] at hr
    subst hr; exact requestOptions_auth_header c _ t ht hd rfl
  | clanMembersByTag tag =>
    simp [runOp, ClashApi.clanMembersByTag] at hr
    subst hr; exact requestOptions_auth_header c _ t ht hd rfl
  | clanWarlogByTag tag =>
    simp [runOp, ClashApi.clanWarlogByTag] at hr
    subst hr; exact requestOptions_auth_header c _ t ht hd rfl
  | clanCurrentWarByTag tag =>
    simp [runOp, ClashApi.clanCurrentWarByTag] at hr
    subst hr; exact requestOptions_auth_header c _ t ht hd rfl
  | clanLeague tag =>
    simp [runOp, ClashApi.clanLeague] at hr
    subst hr; exact requestOptions_auth_header c _ t ht hd rfl
  | clanLeagueWars tag =>
    simp [runOp, ClashApi.clanLeagueWars] at hr
    subst hr; exact requestOptions_auth_header c _ t ht hd rfl
  | leagues =>
    simp [runOp, ClashApi.leagues] at hr
    subst hr; exact requestOptions_auth_header c _ t ht hd rfl
  | playerByTag tag =>
    simp [runOp, ClashApi.playerByTag] at hr
    subst hr; exact requestOptions_auth_header c _ t ht hd rfl
  | clansSearch settings =>
    simp [runOp, ClansDsl.fetch] at hr
    subst hr
    rw [foldl_withField_client]
    exact requestOptions_auth_header c _ t ht hd rfl
  | locationsList =>
    simp [runOp, LocationsDsl.fetch] at hr
    subst hr; exact requestOptions_auth_header c _ t ht hd rfl
  | locationWithId locId =>
    simp [runOp, LocationsDsl.withId] at hr

/-- Witness for C7: the constructed client with token T and empty
defaults carries the bearer header on the leagues request. -/
theorem authorization_header_on_every_request_witness :
    ClashApi.construct [("token", JVal.str "T")] none = Except.ok cW ∧
    cW.token = JVal.str "T" ∧
    cW._requestDefaults = JVal.obj [] ∧
    IssuedCall.header
      ⟨"GET", cW.requestOptions [("uri", JVal.str (cW.uri ++ "/leagues"))]⟩
      "Authorization" = some (JVal.str ("Bearer " ++ "T")) :=
  ⟨rfl, rfl, rfl,
   authorization_header_on_every_request [("token", JVal.str "T")] none cW "T"
     rfl rfl rfl Op.leagues _ (List.Mem.head _)⟩

/-- Counterexample to C8: constructing with a configuration whose
requestDefaults field binds json to false yields a client whose
construction-time defaults are empty, and whose merged request options
still bind json to true from the base template — the requestDefaults
field is ignored, because the constructor reads the field named
request. -/
theorem requestDefaults_field_ignored :
    ClashApi.construct cfgC8 none = Except.ok cC8 ∧
    cC8._requestDefaults = JVal.obj [] ∧
    lookupKey (cC8.requestOptions []) "json" = some (JVal.bool true) ∧
    lookupKey (cC8.requestOptions []) "json" ≠ some (JVal.bool false) := by
  refine ⟨rfl, rfl, ?_, ?_⟩ <;>
    simp [cC8, ClashApi.requestOptions, JVal.objFields, mergeObjList_nil,
      baseOptions, lookupKey]

/-- C8 as amended: the constructor reads the configuration field named
request, stores it as the construction-time default request options,
and any key it binds to a non-object value takes highest precedence in
every subsequent request's option merge. -/
theorem construct_request_defaults (cfg : List (String × JVal)) (envTok : Option String)
    (c : ClashApi) (d : List (String × JVal))
    (hr : lookupKey cfg "request" = some (JVal.obj d))
    (hok : ClashApi.construct cfg envTok = Except.ok c) :
    c._requestDefaults = JVal.obj d ∧
    ∀ opts k v, lookupKey d k = some v → v.isObj = false →
      lookupKey (c.requestOptions opts) k = some v := by
  have hdef : c._requestDefaults = JVal.obj d := by
    unfold ClashApi.construct at hok
    rw [hr] at hok
    simp only [JVal.truthy, if_true] at hok
    split at hok
    · split at hok
      · cases hok; rfl
      · exact Except.noConfusion hok
    · exact Except.noConfusion hok
  refine ⟨hdef, ?_⟩
  intro opts k v hv hleaf
  exact requestOptions_defaults_leaf c opts k v (by rw [hdef]; exact hv) hleaf

/-- Witness for C8 as amended: a request field binding json false wins
over the base template's json true. -/
theorem construct_request_defaults_witness :
    lookupKey cfgW8 "request" = some (JVal.obj [("json", JVal.bool false)]) ∧
    ClashApi.construct cfgW8 none = Except.ok cWd ∧
    (cWd._requestDefaults = JVal.obj [("json", JVal.bool false)] ∧
     ∀ opts k v, lookupKey [("json", JVal.bool false)] k = some v → v.isObj = false →
       lookupKey (cWd.requestOptions opts) k = some v) :=
  ⟨rfl, rfl,
   construct_request_defaults cfgW8 none cWd [("json", JVal.bool false)] rfl rfl⟩

/-- C9: the three configuration fields of the client equal their
post-construction values after any sequence of operations. -/
theorem client_config_immutable (c : ClashApi) (ops : List Op) :
    (runOps c ops).token = c.token ∧ (runOps c ops).uri = c.uri ∧
    (runOps c ops)._requestDefaults = c._requestDefaults := by
  rw [runOps_client]
  exact ⟨rfl, rfl, rfl⟩

/-- C10: an explicitly supplied falsy token is treated the same as no
token at all: construction behaves exactly as with an absent token, so
with a non-empty environment token it succeeds using the environment
token, and with the environment unset it raises the configuration
error. -/
theorem falsy_token_ignored (v : JVal) (hv : v.truthy = false) :
    (∀ envTok, ClashApi.construct [("token", v)] envTok = ClashApi.construct [] envTok) ∧
    (∀ s, s ≠ "" → ∃ c, ClashApi.construct [("token", v)] (some s) = Except.ok c ∧
      c.token = JVal.str s) ∧
    ClashApi.construct [("token", v)] none = Except.error JsError.configError := by
  have hl : lookupKey [("token", v)] "token" = some v := rfl
  refine ⟨?_, ?_, ?_⟩
  · intro envTok
    cases envTok with
    | none => simp [ClashApi.construct, hl, hv, lookupKey]
    | some s =>
      cases htr : (JVal.str s).truthy <;>
        simp [ClashApi.construct, hl, hv, htr, lookupKey]
  · intro s hs
    have hs' : (JVal.str s).truthy = true := by simp [JVal.truthy, hs]
    refine ⟨⟨JVal.str s, configUri, JVal.obj []⟩, ?_, rfl⟩
    simp [ClashApi.construct, hl, hv, hs', lookupKey]
  · simp [ClashApi.construct, hl, hv, lookupKey]

/-- Witness for C10: the empty-string token with the environment unset
raises the configuration error. -/
theorem falsy_token_ignored_witness :
    (JVal.str "").truthy = false ∧
    ClashApi.construct [("token", JVal.str "")] none = Except.error JsError.configError :=
  ⟨rfl, (falsy_token_ignored (JVal.str "") rfl).2.2⟩

end ClashOfClans
